import Mathlib

/-!
Verification of the alidistlint recipe linter (src/alidistlint).

The Python modules `common.py`, `headerlint.py` and `run.py` are shallowly
embedded below.  Python byte strings are modelled as `List Char`, Python
values reachable in parsed YAML trees as `PyVal`, and Python exceptions as
the `PyErr`/`Except` monad.  Each definition carries a reference to the
source function it embeds.
-/

/-- A Python exception, as raised by the subscript and attribute operations
used in `common.position_of_key` and the tree walkers. -/
inductive PyErr where
  | keyError
  | indexError
  | typeError
  | attributeError
deriving DecidableEq

/-- A hashable Python scalar, used as a dict key or as an element of an
object path (`common.position_of_key` paths hold strings and ints). -/
inductive PyKey where
  | str (s : String)
  | int (n : Int)
  | bool (b : Bool)
  | null
deriving DecidableEq

/-- A Python value as built by `yaml.load` with `TrackedLocationLoader`
(common.py): scalars, `yaml.Mark` objects (their `line`/`column` fields,
0-based), lists, and insertion-ordered dicts. -/
inductive PyVal where
  | str (s : String)
  | int (n : Int)
  | bool (b : Bool)
  | null
  | mark (line column : Nat)
  | list (xs : List PyVal)
  | dict (entries : List (PyKey × PyVal))

/-- Embeds `common.Error`: a linter message (NamedTuple with two optional
trailing fields). -/
structure Error where
  level : String
  message : String
  file_name : String
  line : Int
  column : Int
  end_line : Option Int
  end_column : Option Int
deriving DecidableEq

/-- Embeds Python `dict[k]` lookup on an insertion-ordered entry list:
the first entry with an equal key (keys are unique in real dicts). -/
def dictGet (entries : List (PyKey × PyVal)) (k : PyKey) : Option PyVal :=
  match entries.find? (fun e => decide (e.1 = k)) with
  | some e => some e.2
  | Option.none => Option.none

/-- Embeds Python `dict[k] = v`: replace in place if the key exists, else append
(insertion order semantics of Python 3.7+ dicts). -/
def dictSet (entries : List (PyKey × PyVal)) (k : PyKey) (v : PyVal) :
    List (PyKey × PyVal) :=
  if entries.any (fun e => decide (e.1 = k)) then
    entries.map (fun e => if e.1 = k then (k, v) else e)
  else entries ++ [(k, v)]

/-- Build a Python dict from key/value pairs in order (later duplicate keys
overwrite the value, keeping the first position). -/
def dictOfPairs (pairs : List (PyKey × PyVal)) : List (PyKey × PyVal) :=
  pairs.foldl (fun acc p => dictSet acc p.1 p.2) []

/-- Embeds Python list indexing `xs[i]`: negative indices count from the end;
anything out of range raises `IndexError`. -/
def pyIndex (xs : List PyVal) (i : Int) : Except PyErr PyVal :=
  let j : Int := if i < 0 then i + xs.length else i
  if h : 0 ≤ j ∧ j < (xs.length : Int) then
    Except.ok (xs.get ⟨j.toNat, by omega⟩)
  else Except.error PyErr.indexError

/-- Embeds Python string indexing `s[i]`: yields a one-character string. -/
def pyStrIndex (s : String) (i : Int) : Except PyErr PyVal :=
  let cs := s.data
  let j : Int := if i < 0 then i + cs.length else i
  if h : 0 ≤ j ∧ j < (cs.length : Int) then
    Except.ok (PyVal.str (String.mk [cs.get ⟨j.toNat, by omega⟩]))
  else Except.error PyErr.indexError

/-- Embeds Python subscript `obj[key]` for the value shapes reachable in tracked
trees: dicts raise `KeyError` on a missing key, lists and strings accept
int (and bool) indices, everything else raises `TypeError`. -/
def subscript : PyVal → PyKey → Except PyErr PyVal
  | PyVal.dict entries, k =>
    match dictGet entries k with
    | some v => Except.ok v
    | Option.none => Except.error PyErr.keyError
  | PyVal.list xs, PyKey.int i => pyIndex xs i
  | PyVal.list xs, PyKey.bool b => pyIndex xs (if b then 1 else 0)
  | PyVal.list _, _ => Except.error PyErr.typeError
  | PyVal.str s, PyKey.int i => pyStrIndex s i
  | PyVal.str s, PyKey.bool b => pyStrIndex s (if b then 1 else 0)
  | PyVal.str _, _ => Except.error PyErr.typeError
  | _, _ => Except.error PyErr.typeError

/-- Embeds `TrackedLocationLoader.construct_sequence` (common.py lines 102-106):
the constructed sequence with a parallel list of its items' start marks
appended as an extra final element. -/
def construct_sequence (items : List PyVal) (item_marks : List (Nat × Nat)) :
    PyVal :=
  PyVal.list (items ++ [PyVal.list (item_marks.map
    (fun m => PyVal.mark m.1 m.2))])

/-- Embeds `TrackedLocationLoader.construct_mapping` (common.py lines 108-116):
the constructed mapping with an extra `_locations` entry mapping each key's
parsed value to its start mark. -/
def construct_mapping (pairs : List (PyKey × PyVal))
    (key_marks : List (PyKey × (Nat × Nat))) : PyVal :=
  let base := dictOfPairs pairs
  PyVal.dict (dictSet base (PyKey.str "_locations")
    (PyVal.dict (dictOfPairs (key_marks.map
      (fun km => (km.1, PyVal.mark km.2.1 km.2.2))))))

mutual

/-- Embeds `TrackedLocationLoader.remove_trackers` (common.py lines 118-133):
drop the `_locations` entry from every dict and the final (tracker)
element from every list, recursively. -/
def remove_trackers : PyVal → PyVal
  | PyVal.dict entries => PyVal.dict (removeTrackersDict entries)
  | PyVal.list xs => PyVal.list (removeTrackersElems xs)
  | v => v
termination_by structural v => v

/-- The dict comprehension inside `remove_trackers`: keep every entry whose
key is not `_locations`, recursing into the values. -/
def removeTrackersDict : List (PyKey × PyVal) → List (PyKey × PyVal)
  | [] => []
  | (k, v) :: rest =>
    if k = PyKey.str "_locations" then removeTrackersDict rest
    else (k, remove_trackers v) :: removeTrackersDict rest
termination_by structural es => es

/-- The list comprehension inside `remove_trackers`: recurse into
`data[:-1]`, i.e. drop the final (tracker) element. -/
def removeTrackersElems : List PyVal → List PyVal
  | [] => []
  | v :: rest =>
    if rest.isEmpty then []
    else remove_trackers v :: removeTrackersElems rest
termination_by structural xs => xs

end

mutual

/-- Returns `true` iff the value contains no Python list anywhere (so no tracker
position list can be confused with data). Auxiliary predicate used to
state on which trees `remove_trackers` is idempotent. -/
def listFree : PyVal → Bool
  | PyVal.dict entries => listFreeDict entries
  | PyVal.list _ => false
  | _ => true
termination_by structural v => v

/-- Conjunction of `listFree` over a dict's entries. -/
def listFreeDict : List (PyKey × PyVal) → Bool
  | [] => true
  | (_, v) :: rest => listFree v && listFreeDict rest
termination_by structural es => es

end

mutual

/-- Returns `true` iff no dict in the value has a `_locations` entry. Auxiliary
predicate describing already-clean values. -/
def noLocs : PyVal → Bool
  | PyVal.dict entries => noLocsDict entries
  | PyVal.list xs => noLocsElems xs
  | _ => true
termination_by structural v => v

/-- Conjunction of `noLocs` over a dict's entries. -/
def noLocsDict : List (PyKey × PyVal) → Bool
  | [] => true
  | (k, v) :: rest =>
    decide (k ≠ PyKey.str "_locations") && noLocs v && noLocsDict rest
termination_by structural es => es

/-- Conjunction of `noLocs` over a list's elements. -/
def noLocsElems : List PyVal → Bool
  | [] => true
  | v :: rest => noLocs v && noLocsElems rest
termination_by structural xs => xs

end

/-- The `direct_parent` selection of `common.position_of_key` (common.py
lines 259-265): the `_locations` table of a dict parent (`KeyError` if
absent), the final (tracker) element of a list parent (`IndexError` if
empty), and `TypeError` for anything else. -/
def directParentOf : PyVal → Except PyErr PyVal
  | PyVal.dict entries =>
    match dictGet entries (PyKey.str "_locations") with
    | some v => Except.ok v
    | Option.none => Except.error PyErr.keyError
  | PyVal.list xs =>
    match xs.getLast? with
    | some v => Except.ok v
    | Option.none => Except.error PyErr.indexError
  | _ => Except.error PyErr.typeError

/-- The try-block of `common.position_of_key` (common.py lines 266-271):
`mark = direct_parent[path[-1]]; return mark.line + 1, mark.column + 1`,
with a `KeyError` caught to yield the default `(1, 0)`; any other
exception (including `IndexError`) propagates, and a looked-up value
without `line`/`column` fields raises `AttributeError`. -/
def markLookupStep (direct_parent : PyVal) (k : PyKey) :
    Except PyErr (Int × Int) :=
  match subscript direct_parent k with
  | Except.ok (PyVal.mark l c) => Except.ok ((l : Int) + 1, (c : Int) + 1)
  | Except.ok _ => Except.error PyErr.attributeError
  | Except.error PyErr.keyError => Except.ok (1, 0)
  | Except.error e => Except.error e

/-- Embeds `common.position_of_key` (common.py lines 253-271): walk `path[:-1]`
by subscripting, select the direct parent table, then look up `path[-1]`
in it (an empty path raises `IndexError` at `path[-1]`). -/
def position_of_key (tagged_object : PyVal) (path : List PyKey) :
    Except PyErr (Int × Int) := do
  let cur_object_parent ← path.dropLast.foldlM subscript tagged_object
  let direct_parent ← directParentOf cur_object_parent
  match path.getLast? with
  | Option.none => Except.error PyErr.indexError
  | some k => markLookupStep direct_parent k

/-- Embeds `headerlint.check_keys_order` (headerlint.py lines 181-218), with the
generator's yields collected in order; an exception raised while building
an error aborts the remainder, as when draining the generator. -/
def check_keys_order (data : List (PyKey × PyVal)) (orig_file_name : String)
    (line_offset column_offset : Int) : Except PyErr (List Error) := do
  let make_error := fun (message : String) (key : String) => do
    let rel ← position_of_key (PyVal.dict data) [PyKey.str key]
    Except.ok (Error.mk "error" (message ++ " [ali:key-order]")
      orig_file_name (rel.1 + line_offset) (rel.2 + column_offset)
      Option.none Option.none)
  let keys := data.map (fun e => e.1)
  let hasKey := fun (s : String) => keys.any (fun k => decide (k = PyKey.str s))
  let idx := fun (s : String) =>
    keys.findIdx (fun k => decide (k = PyKey.str s))
  let errs1 ←
    if hasKey "requires" && hasKey "build_requires"
        && decide (idx "requires" > idx "build_requires") then do
      let a ← make_error "requires must come before build_requires" "requires"
      let b ← make_error "requires must come before build_requires"
        "build_requires"
      Except.ok [a, b]
    else Except.ok []
  let errs2 ←
    if hasKey "package" then do
      let p ←
        if decide (idx "package" ≠ 0) then do
          let e ← make_error "package: must be the first key in the file"
            "package"
          Except.ok [e]
        else Except.ok []
      let v ←
        if hasKey "version" && decide (idx "version" ≠ 1) then do
          let e ← make_error
            "version: must be the second key in the file (after package)"
            "version"
          Except.ok [e]
        else Except.ok []
      let t ←
        if hasKey "tag" && decide (idx "tag" ≠ 2) then do
          let e ← make_error
            "tag: must be the third key in the file (after version)" "tag"
          Except.ok [e]
        else Except.ok []
      Except.ok (p ++ v ++ t)
    else if hasKey "version" then do
      let v ←
        if decide (idx "version" ≠ 0) then do
          let e ← make_error
            "version: must be the first key in the override declaration"
            "version"
          Except.ok [e]
        else Except.ok []
      let t ←
        if hasKey "tag" && decide (idx "tag" ≠ 1) then do
          let e ← make_error
            "tag: must be the second key in the override declaration (after version)"
            "tag"
          Except.ok [e]
        else Except.ok []
      Except.ok (v ++ t)
    else if hasKey "tag" && decide (idx "tag" ≠ 0) then do
      let e ← make_error
        "tag: must be the first key in the override declaration (as version is not present)"
        "tag"
      Except.ok [e]
    else Except.ok []
  Except.ok (errs1 ++ errs2)

/-- A cerberus validation error tree (`headerlint.ValidationErrorTree`):
a message string, a dict of sub-trees, or a list of sub-trees. -/
inductive VTree where
  | leaf (msg : String)
  | node (entries : List (PyKey × VTree))
  | many (subs : List VTree)

/-- Embeds Python `str()` of a path element, as used by the dot-join in
`headerlint.emit_validation_errors`. -/
def pyKeyStr : PyKey → String
  | PyKey.str s => s
  | PyKey.int n => toString n
  | PyKey.bool b => if b then "True" else "False"
  | PyKey.null => "None"

mutual

/-- Embeds `headerlint.emit_validation_errors` (headerlint.py lines 154-178):
dict nodes recurse with the path extended by each key, list nodes recurse
with the unchanged path, string leaves resolve the current path via
`position_of_key` and emit one error. -/
def emit_validation_errors :
    VTree → PyVal → String → Int → Int → List PyKey →
    Except PyErr (List Error)
  | VTree.node entries, tagged, f, lo, co, path =>
    emitDictErrors entries tagged f lo co path
  | VTree.many subs, tagged, f, lo, co, path =>
    emitListErrors subs tagged f lo co path
  | VTree.leaf msg, tagged, f, lo, co, path => do
    let pos ← position_of_key tagged path
    let dotted := String.intercalate "." (path.map pyKeyStr)
    Except.ok [Error.mk "error" (dotted ++ ": " ++ msg ++ " [ali:schema]")
      f (pos.1 + lo) (pos.2 + co) Option.none Option.none]
termination_by structural t => t

/-- The dict branch of `emit_validation_errors`: iterate the entries in
order, recursing with `path + (key,)` for every entry. -/
def emitDictErrors :
    List (PyKey × VTree) → PyVal → String → Int → Int → List PyKey →
    Except PyErr (List Error)
  | [], _, _, _, _, _ => Except.ok []
  | (key, suberrors) :: rest, tagged, f, lo, co, path => do
    let es ← emit_validation_errors suberrors tagged f lo co (path ++ [key])
    let more ← emitDictErrors rest tagged f lo co path
    Except.ok (es ++ more)
termination_by structural es => es

/-- The list branch of `emit_validation_errors`: iterate the sub-trees in
order, recursing with the unchanged path. -/
def emitListErrors :
    List VTree → PyVal → String → Int → Int → List PyKey →
    Except PyErr (List Error)
  | [], _, _, _, _, _ => Except.ok []
  | subtree :: rest, tagged, f, lo, co, path => do
    let es ← emit_validation_errors subtree tagged f lo co path
    let more ← emitListErrors rest tagged f lo co path
    Except.ok (es ++ more)
termination_by structural xs => xs

end

/-- Modelled from the spec: a synthetic combinator marker key "grouping
alternative-schema branches" (spec section 4.4); cerberus labels such
branches "anyof definition N" / "oneof definition N". -/
def isCombinatorMarker : PyKey → Bool
  | PyKey.str s =>
    List.isPrefixOf "anyof definition".data s.data
      || List.isPrefixOf "oneof definition".data s.data
  | _ => false

mutual

/-- Modelled from the spec (section 4.4, Error-Tree Walker): like
`emit_validation_errors`, but a dict field that is a synthetic combinator
marker recurses with the unchanged path instead of extending it.  This
spec-side variant exists only to be compared with the code's walker. -/
def emit_validation_errors_spec_model :
    VTree → PyVal → String → Int → Int → List PyKey →
    Except PyErr (List Error)
  | VTree.node entries, tagged, f, lo, co, path =>
    emitDictErrorsSpecModel entries tagged f lo co path
  | VTree.many subs, tagged, f, lo, co, path =>
    emitListErrorsSpecModel subs tagged f lo co path
  | VTree.leaf msg, tagged, f, lo, co, path => do
    let pos ← position_of_key tagged path
    let dotted := String.intercalate "." (path.map pyKeyStr)
    Except.ok [Error.mk "error" (dotted ++ ": " ++ msg ++ " [ali:schema]")
      f (pos.1 + lo) (pos.2 + co) Option.none Option.none]
termination_by structural t => t

/-- Dict branch of the spec-side walker: combinator markers keep the
current path, other fields extend it. -/
def emitDictErrorsSpecModel :
    List (PyKey × VTree) → PyVal → String → Int → Int → List PyKey →
    Except PyErr (List Error)
  | [], _, _, _, _, _ => Except.ok []
  | (key, suberrors) :: rest, tagged, f, lo, co, path => do
    let es ← emit_validation_errors_spec_model suberrors tagged f lo co
      (if isCombinatorMarker key then path else path ++ [key])
    let more ← emitDictErrorsSpecModel rest tagged f lo co path
    Except.ok (es ++ more)
termination_by structural es => es

/-- List branch of the spec-side walker. -/
def emitListErrorsSpecModel :
    List VTree → PyVal → String → Int → Int → List PyKey →
    Except PyErr (List Error)
  | [], _, _, _, _, _ => Except.ok []
  | subtree :: rest, tagged, f, lo, co, path => do
    let es ← emit_validation_errors_spec_model subtree tagged f lo co path
    let more ← emitListErrorsSpecModel rest tagged f lo co path
    Except.ok (es ++ more)
termination_by structural xs => xs

end

/-- Helper for `bytes.find`: the least index at which `needle` starts in the
remaining haystack, given the index of that remainder's head. -/
def findSubAux (needle : List Char) : List Char → Nat → Option Nat
  | [], i => if needle.isPrefixOf ([] : List Char) then some i else Option.none
  | hay@(_ :: rest), i =>
    if needle.isPrefixOf hay then some i else findSubAux needle rest (i + 1)

/-- Embeds Python `hay.find(needle)` on byte strings: least start index, or -1. -/
def bytesFind (hay needle : List Char) : Int :=
  match findSubAux needle hay 0 with
  | some i => (i : Int)
  | Option.none => -1

/-- Accumulator worker for `bytesSplitlines` (current line held reversed). -/
def bytesSplitlinesAux : List Char → List Char → List (List Char)
  | [], acc => if acc.isEmpty then [] else [acc.reverse]
  | '\r' :: '\n' :: rest, acc => acc.reverse :: bytesSplitlinesAux rest []
  | '\n' :: rest, acc => acc.reverse :: bytesSplitlinesAux rest []
  | '\r' :: rest, acc => acc.reverse :: bytesSplitlinesAux rest []
  | c :: rest, acc => bytesSplitlinesAux rest (c :: acc)

/-- Embeds Python `bytes.splitlines()`: split on LF, CR and CRLF, with no final
empty line for a trailing terminator. -/
def bytesSplitlines (cs : List Char) : List (List Char) :=
  bytesSplitlinesAux cs []

/-- The number of start indices at which `needle` occurs in `hay`; used to
state the spec's "one error per occurrence" (spec section 4.3 step 2). -/
def occurrenceCount (hay needle : List Char) : Nat :=
  (List.range (hay.length + 1)).countP
    (fun i => needle.isPrefixOf (hay.drop i))

/-- The separator `b"\n---\n"` searched for by `common.split_files`. -/
def separatorBytes : List Char := ['\n', '-', '-', '-', '\n']

/-- The bare `b"---"` marker scanned for in the header text. -/
def dashesBytes : List Char := ['-', '-', '-']

/-- The message of the stray-`---` error in `common.split_files`. -/
def dashMessage : String :=
  "found \"---\" in YAML header; this prevents aliBuild from parsing this recipe [ali:parse]"

/-- The line loop of the stray-`---` scan in `common.split_files`
(common.py lines 186-194): one error per line whose `find(b'---')` is not
-1, at that first position, lines numbered from 1. -/
def dashScanLines (file_name : String) : Nat → List (List Char) → List Error
  | _, [] => []
  | lineno, line :: rest =>
    let dashes_pos := bytesFind line dashesBytes
    if dashes_pos ≠ -1 then
      Error.mk "error" dashMessage file_name ((lineno : Int) + 1)
          (dashes_pos + 1) Option.none (some (dashes_pos + 4)) ::
        dashScanLines file_name (lineno + 1) rest
    else dashScanLines file_name (lineno + 1) rest

/-- The stray-`---` scan of `common.split_files` (common.py lines
184-194): guarded by `b'---' in yaml_text`, then the per-line loop. -/
def dash_scan_errors (yaml_text : List Char) (file_name : String) :
    List Error :=
  if bytesFind yaml_text dashesBytes ≠ -1 then
    dashScanLines file_name 0 (bytesSplitlines yaml_text)
  else []

/-- The per-file slicing arithmetic of `common.split_files` (common.py
lines 177-218): separator position, header text, main script bytes and the
main script part's line offset. -/
structure SplitCore where
  yaml_text : List Char
  script : List Char
  script_line_offset : Int
deriving DecidableEq

/-- Embeds the `common.split_files` slicing for one input file (common.py lines
177-181 and 210-218): `separator_position = recipe.find(b'\n---\n') + 1`,
`yaml_text = recipe[:separator_position]`,
`script = recipe[separator_position + 4:]`, and the script part's line
offset `yaml_text.count(b'\n') + 1`. -/
def split_file_core (recipe : List Char) : SplitCore :=
  let separator_position : Int := bytesFind recipe separatorBytes + 1
  let yaml_text := recipe.take separator_position.toNat
  let script := recipe.drop (separator_position + 4).toNat
  SplitCore.mk yaml_text script ((yaml_text.count '\n' : Int) + 1)

/-- The exit-status computation of `run.run_with_args` (run.py lines
32-58): `have_error` is OR-folded over every diagnostic received from the
checkers' merged queue with `have_error |= error.level == 'error'`, and
the function returns `1 if have_error else 0`. -/
def run_with_args_exit (received : List Error) : Int :=
  let have_error :=
    received.foldl (fun acc e => acc || (e.level == "error")) false
  if have_error then 1 else 0

/-- Embeds `headerlint.headerlint` (headerlint.py lines 221-290) applied to an
empty parts stream: the loop body never runs, leaving exactly the two
unconditional info markers yielded at lines 228 and 290, both with file
name `''`, line 0 and column 0. -/
def headerlint_empty_parts : List Error :=
  [Error.mk "info" "headerlint started" "" 0 0 Option.none Option.none,
   Error.mk "info" "headerlint finished" "" 0 0 Option.none Option.none]

/-- The length of a Python list value (0 for non-lists); discriminates
unequal `PyVal`s in counterexamples. -/
def pyListLength : PyVal → Nat
  | PyVal.list xs => xs.length
  | _ => 0

deriving instance DecidableEq for Except

/-- The tagged header data of a top-level recipe whose declared key order
is exactly tag, version, package, as built by `construct_mapping` (keys at
source lines 0, 1, 2). -/
def dataTagVersionPackage : List (PyKey × PyVal) :=
  [(PyKey.str "tag", PyVal.str "v1"),
   (PyKey.str "version", PyVal.str "1.0"),
   (PyKey.str "package", PyVal.str "foo"),
   (PyKey.str "_locations", PyVal.dict
     [(PyKey.str "tag", PyVal.mark 0 0),
      (PyKey.str "version", PyVal.mark 1 0),
      (PyKey.str "package", PyVal.mark 2 0)])]

/-- A tracked two-item sequence whose items were declared at source
positions (2,2) and (5,4), as built by `construct_sequence`. -/
def trackedPair : PyVal :=
  construct_sequence [PyVal.str "a", PyVal.str "b"] [(2, 2), (5, 4)]

/-- A cerberus error tree for field `x` whose violation sits under the
synthetic combinator branch key `anyof definition 0`. -/
def anyofTree : VTree :=
  VTree.node [(PyKey.str "x",
    VTree.node [(PyKey.str "anyof definition 0",
      VTree.many [VTree.leaf "msg"])])]

/-- A tracked object for `anyofTree`: key `x` declared at source position
(0,0); its (artificial) dict value tracks key `anyof definition 0` at
source position (4,2), so the two walkers resolve different positions. -/
def anyofTagged : PyVal :=
  PyVal.dict
    [(PyKey.str "x", PyVal.dict
       [(PyKey.str "_locations", PyVal.dict
          [(PyKey.str "anyof definition 0", PyVal.mark 4 2)])]),
     (PyKey.str "_locations", PyVal.dict [(PyKey.str "x", PyVal.mark 0 0)])]

/-! ## Theorems -/

/-- C1: the spec claims that a file without the `\n---\n` separator splits
into an empty header and a main script equal to the entire input.  The
code's `recipe.find(b'\n---\n') + 1` turns the `-1` failure sentinel into
offset 0, so `recipe[separator_position + 4:]` drops the first four bytes
of the file: on input `b"echo hi\n"` the header is empty but the main
script is `b" hi\n"`, not the whole input. -/
theorem split_file_no_separator_drops_four_bytes :
    (split_file_core "echo hi\n".data).yaml_text = [] ∧
    (split_file_core "echo hi\n".data).script = " hi\n".data ∧
    (split_file_core "echo hi\n".data).script ≠ "echo hi\n".data := by
  decide

/-- C9: on `b"package: foo\nversion: 1.0\n---\necho hi\n"`, splitting
yields header text `b"package: foo\nversion: 1.0\n"`, main script content
`b"echo hi\n"` with line offset 3, and the tracked header tree built by
`construct_mapping` from the parsed header entries maps `package` to
`foo` and `version` to `1.0`. -/
theorem split_example_header_and_script :
    (split_file_core "package: foo\nversion: 1.0\n---\necho hi\n".data).yaml_text
        = "package: foo\nversion: 1.0\n".data ∧
    (split_file_core "package: foo\nversion: 1.0\n---\necho hi\n".data).script
        = "echo hi\n".data ∧
    (split_file_core "package: foo\nversion: 1.0\n---\necho hi\n".data).script_line_offset
        = 3 ∧
    subscript (construct_mapping
        [(PyKey.str "package", PyVal.str "foo"),
         (PyKey.str "version", PyVal.str "1.0")]
        [(PyKey.str "package", (0, 0)), (PyKey.str "version", (1, 0))])
      (PyKey.str "package") = Except.ok (PyVal.str "foo") ∧
    subscript (construct_mapping
        [(PyKey.str "package", PyVal.str "foo"),
         (PyKey.str "version", PyVal.str "1.0")]
        [(PyKey.str "package", (0, 0)), (PyKey.str "version", (1, 0))])
      (PyKey.str "version") = Except.ok (PyVal.str "1.0") :=
  ⟨by decide, by decide, by decide, rfl, rfl⟩

/-- C3 counterexample: on a top-level header declared in the order tag,
version, package, `check_keys_order` emits exactly two diagnostics (for
`package` and `tag`); `version` sits at declared index 1, which is
already its required place, so the claimed third diagnostic never
exists. -/
theorem check_keys_order_two_errors_not_three :
    check_keys_order dataTagVersionPackage "foo.sh" 0 0 = Except.ok
      [Error.mk "error"
        "package: must be the first key in the file [ali:key-order]"
        "foo.sh" 3 1 Option.none Option.none,
       Error.mk "error"
        "tag: must be the third key in the file (after version) [ali:key-order]"
        "foo.sh" 1 1 Option.none Option.none] ∧
    (2 : Nat) ≠ 3 := by
  decide

/-- C4 counterexample: the header text `b"a --- ---\n"` contains two
occurrences of `---`, but the splitter's scan emits a single error for
that line (at the first occurrence), because `line.find(b'---')` reports
at most one position per line. -/
theorem dash_scan_one_error_for_two_occurrences :
    occurrenceCount "a --- ---\n".data dashesBytes = 2 ∧
    (dash_scan_errors "a --- ---\n".data "f").length = 1 := by
  decide

/-- C5 counterexample: for a tracked sequence with items at source
positions (2,2) and (5,4), resolving index 0 yields (3,3), the first
item's own position, while the last entry of the position list sits at
(6,5) — so resolve does not return the last entry regardless of the
final path segment. -/
theorem position_of_key_not_last_entry :
    position_of_key trackedPair [PyKey.int 0] = Except.ok (3, 3) ∧
    position_of_key trackedPair [PyKey.int 1] = Except.ok (6, 5) ∧
    ((3, 3) : Int × Int) ≠ (6, 5) := by
  decide

/-- C6 counterexample: on an error tree whose violation sits under the
combinator branch key `anyof definition 0`, the code's walker extends the
path with that key (dotted path `x.anyof definition 0`, position looked
up for the marker key), while the spec's walker keeps the path at `x`;
the two emit different diagnostics. -/
theorem emit_validation_errors_extends_path_at_marker :
    emit_validation_errors anyofTree anyofTagged "f" 0 0 [] = Except.ok
      [Error.mk "error" "x.anyof definition 0: msg [ali:schema]" "f" 5 3
        Option.none Option.none] ∧
    emit_validation_errors_spec_model anyofTree anyofTagged "f" 0 0 []
      = Except.ok
      [Error.mk "error" "x: msg [ali:schema]" "f" 1 1
        Option.none Option.none] ∧
    Error.mk "error" "x.anyof definition 0: msg [ali:schema]" "f" 5 3
        Option.none Option.none
      ≠ Error.mk "error" "x: msg [ali:schema]" "f" 1 1
        Option.none Option.none := by
  decide

/-- C6 amended: the code's walker treats every dict field uniformly,
recursing with the path extended by the field — combinator marker keys
included. -/
theorem emit_validation_errors_always_extends
    (k : PyKey) (sub : VTree) (tagged : PyVal) (f : String) (lo co : Int)
    (path : List PyKey) :
    emit_validation_errors (VTree.node [(k, sub)]) tagged f lo co path
      = emit_validation_errors sub tagged f lo co (path ++ [k]) := by
  have h1 : emit_validation_errors (VTree.node [(k, sub)]) tagged f lo co path
      = Except.bind (emit_validation_errors sub tagged f lo co (path ++ [k]))
          (fun es => Except.bind (emitDictErrors [] tagged f lo co path)
            (fun more => Except.ok (es ++ more))) := rfl
  rw [h1]
  cases h : emit_validation_errors sub tagged f lo co (path ++ [k]) with
  | ok es => exact congrArg Except.ok (List.append_nil es)
  | error e => rfl

/-- C7: the spec claims every emitted diagnostic has a 1-based position in
the original input file, but `headerlint` unconditionally yields info
markers (`headerlint started` / `headerlint finished`) with file name
`''`, line 0 and column 0 — already on an empty parts stream. -/
theorem headerlint_markers_not_one_based :
    ¬ (∀ e ∈ headerlint_empty_parts, 1 ≤ e.line ∧ 1 ≤ e.column) := by
  decide

/-- OR-folding a boolean over a list equals the seed OR-ed with `any`. -/
theorem foldl_or_eq_any (received : List Error) (b : Bool) :
    received.foldl (fun acc e => acc || (e.level == "error")) b
      = (b || received.any (fun e => e.level == "error")) := by
  induction received generalizing b with
  | nil => simp
  | cons h t ih => simp [List.foldl_cons, ih, Bool.or_assoc]

/-- C8: the exit status computed by `run_with_args` is non-zero exactly
when some received diagnostic has level `error`; warnings, infos and
style diagnostics never make it non-zero. -/
theorem run_with_args_exit_nonzero_iff_error_level (received : List Error) :
    run_with_args_exit received ≠ 0 ↔ ∃ e ∈ received, e.level = "error" := by
  unfold run_with_args_exit
  rw [foldl_or_eq_any]
  simp [List.any_eq_true]

/-- C3 amended: for a top-level header declared exactly in the order tag,
version, package (each key tracked at its own source position),
`check_keys_order` emits exactly two diagnostics — one for `package` (not
first) and one for `tag` (not third); `version` is already at its required
index 1, so no diagnostic names it. -/
theorem check_keys_order_tag_version_package_general
    (vt vv vp : PyVal) (lt ct lv cv lp cp : Nat) (f : String) (lo co : Int) :
    check_keys_order
      [(PyKey.str "tag", vt), (PyKey.str "version", vv),
       (PyKey.str "package", vp),
       (PyKey.str "_locations", PyVal.dict
         [(PyKey.str "tag", PyVal.mark lt ct),
          (PyKey.str "version", PyVal.mark lv cv),
          (PyKey.str "package", PyVal.mark lp cp)])] f lo co
    = Except.ok
      [Error.mk "error"
        "package: must be the first key in the file [ali:key-order]"
        f ((lp : Int) + 1 + lo) ((cp : Int) + 1 + co)
        Option.none Option.none,
       Error.mk "error"
        "tag: must be the third key in the file (after version) [ali:key-order]"
        f ((lt : Int) + 1 + lo) ((ct : Int) + 1 + co)
        Option.none Option.none] := rfl

/-- The dash-scan loop emits exactly one error per scanned line whose
`find(b'---')` is not -1. -/
theorem dashScanLines_length (f : String) (n : Nat) (ls : List (List Char)) :
    (dashScanLines f n ls).length
      = ls.countP (fun l => decide (bytesFind l dashesBytes ≠ -1)) := by
  induction ls generalizing n with
  | nil => simp [dashScanLines]
  | cons l rest ih =>
    by_cases h : bytesFind l dashesBytes ≠ -1
    · simp [dashScanLines, h, ih, List.countP_cons]
    · simp [dashScanLines, h, ih, List.countP_cons]

/-- C4 amended: whenever the header text contains `---` at all, the
splitter's scan emits exactly one error per header line containing
`---` (not one per occurrence): the error count equals the number of
lines on which `find(b'---')` succeeds. -/
theorem dash_scan_errors_one_per_line (yaml_text : List Char) (f : String)
    (h : bytesFind yaml_text dashesBytes ≠ -1) :
    (dash_scan_errors yaml_text f).length
      = (bytesSplitlines yaml_text).countP
          (fun l => decide (bytesFind l dashesBytes ≠ -1)) := by
  unfold dash_scan_errors
  rw [if_pos h, dashScanLines_length]

/-- Witness for the C4 amended theorem at the header text
`b"x---\ny\n--\n"`. -/
theorem dash_scan_errors_one_per_line_witness :
    bytesFind "x---\ny\n--\n".data dashesBytes ≠ -1 ∧
    (dash_scan_errors "x---\ny\n--\n".data "f").length
      = (bytesSplitlines "x---\ny\n--\n".data).countP
          (fun l => decide (bytesFind l dashesBytes ≠ -1)) :=
  ⟨by decide, dash_scan_errors_one_per_line "x---\ny\n--\n".data "f" (by decide)⟩

/-- A list parent with known last element selects that element as the
direct parent table. -/
theorem directParentOf_list (xs : List PyVal) (m : PyVal)
    (hm : xs.getLast? = some m) :
    directParentOf (PyVal.list xs) = Except.ok m := by
  simp only [directParentOf]
  rw [hm]

/-- A dict parent with a `_locations` entry selects it as the direct
parent table. -/
theorem directParentOf_dict (entries : List (PyKey × PyVal)) (v : PyVal)
    (hv : dictGet entries (PyKey.str "_locations") = some v) :
    directParentOf (PyVal.dict entries) = Except.ok v := by
  simp only [directParentOf]
  rw [hv]

/-- Reduction of `position_of_key` at a one-element path: resolve the
direct parent table, then perform the mark lookup. -/
theorem position_of_key_single (tagged : PyVal) (k : PyKey) :
    position_of_key tagged [k]
      = Except.bind (directParentOf tagged)
          (fun direct_parent => markLookupStep direct_parent k) := rfl

/-- Reduction of `position_of_key` at a one-element path whose parent is a
tracked list with known last element. -/
theorem position_of_key_list_single (xs : List PyVal) (m : PyVal) (k : PyKey)
    (hm : xs.getLast? = some m) :
    position_of_key (PyVal.list xs) [k] = markLookupStep m k := by
  rw [position_of_key_single, directParentOf_list xs m hm]
  rfl

/-- C5 amended: when the addressed parent is a tracked sequence, the
resolver takes the sequence's last element (the appended position list)
and indexes it by the final path segment, returning that entry's own
1-based position — not the position of the last entry. -/
theorem position_of_key_seq_uses_final_segment (xs marks : List PyVal)
    (n : Int) (l c : Nat)
    (hlast : xs.getLast? = some (PyVal.list marks))
    (hsub : subscript (PyVal.list marks) (PyKey.int n)
      = Except.ok (PyVal.mark l c)) :
    position_of_key (PyVal.list xs) [PyKey.int n]
      = Except.ok ((l : Int) + 1, (c : Int) + 1) := by
  rw [position_of_key_list_single xs (PyVal.list marks) (PyKey.int n) hlast]
  unfold markLookupStep
  rw [hsub]

/-- Witness for the C5 amended theorem on `trackedPair`, index 0. -/
theorem position_of_key_seq_uses_final_segment_witness :
    position_of_key trackedPair [PyKey.int 0] = Except.ok (3, 3) :=
  position_of_key_seq_uses_final_segment
    [PyVal.str "a", PyVal.str "b", PyVal.list [PyVal.mark 2 2, PyVal.mark 5 4]]
    [PyVal.mark 2 2, PyVal.mark 5 4] 0 2 2 rfl rfl

/-- C10: the (1,0) default of `position_of_key` arises only from the
`KeyError` of a key missing from a mapping's `_locations` table; when the
parent is a tracked sequence, the final path segment indexes the position
list, and an out-of-range index propagates `IndexError` instead of
returning the default. -/
theorem position_of_key_default_and_index_error :
    (∀ (entries locs : List (PyKey × PyVal)) (k : PyKey),
       dictGet entries (PyKey.str "_locations") = some (PyVal.dict locs) →
       dictGet locs k = Option.none →
       position_of_key (PyVal.dict entries) [k] = Except.ok (1, 0))
  ∧ (∀ (xs marks : List PyVal) (i : Nat),
       xs.getLast? = some (PyVal.list marks) → marks.length ≤ i →
       position_of_key (PyVal.list xs) [PyKey.int (i : Int)]
         = Except.error PyErr.indexError) := by
  constructor
  · intro entries locs k hloc hmiss
    rw [position_of_key_single, directParentOf_dict entries _ hloc]
    show markLookupStep (PyVal.dict locs) k = Except.ok (1, 0)
    have hs : subscript (PyVal.dict locs) k = Except.error PyErr.keyError := by
      simp only [subscript, hmiss]
    unfold markLookupStep
    rw [hs]
  · intro xs marks i hlast hlen
    have hs : subscript (PyVal.list marks) (PyKey.int (i : Int))
        = Except.error PyErr.indexError := by
      show pyIndex marks (i : Int) = Except.error PyErr.indexError
      have hneg : ¬ ((i : Int) < 0) := by omega
      simp only [pyIndex, if_neg hneg]
      split
      · next hcond => exfalso; omega
      · rfl
    rw [position_of_key_list_single xs (PyVal.list marks) _ hlast]
    unfold markLookupStep
    rw [hs]

/-- Witness for C10: both conjuncts instantiated concretely — the key
`missing` absent from a `_locations` table yields (1,0), and index 2 into
a two-entry position list propagates `IndexError`. -/
theorem position_of_key_default_and_index_error_witness :
    position_of_key
        (PyVal.dict [(PyKey.str "_locations", PyVal.dict [])])
        [PyKey.str "missing"] = Except.ok (1, 0) ∧
    position_of_key
        (PyVal.list [PyVal.str "a", PyVal.str "b",
          PyVal.list [PyVal.mark 2 2, PyVal.mark 5 4]])
        [PyKey.int (2 : Nat)] = Except.error PyErr.indexError :=
  ⟨position_of_key_default_and_index_error.1
      [(PyKey.str "_locations", PyVal.dict [])] [] (PyKey.str "missing")
      rfl rfl,
   position_of_key_default_and_index_error.2
      [PyVal.str "a", PyVal.str "b",
        PyVal.list [PyVal.mark 2 2, PyVal.mark 5 4]]
      [PyVal.mark 2 2, PyVal.mark 5 4] 2 rfl (by decide)⟩

/-- C2 counterexample: `trackedPair` is the loader's value for the YAML
text `- a\n- b\n` (items at source positions (0,2) and (1,2)).  One clean
removes the appended tracker list; a second clean drops the last *data*
element (`remove_trackers` always drops a list's final element), so clean
of clean differs from clean — the clean operation is not idempotent and
not a no-op on already-clean lists. -/
theorem remove_trackers_not_idempotent :
    remove_trackers (remove_trackers trackedPair)
      ≠ remove_trackers trackedPair :=
  fun h => absurd (congrArg pyListLength h) (by decide)

/-- Every `PyVal` has positive size. -/
theorem pyval_sizeOf_pos (v : PyVal) : 0 < sizeOf v := by
  cases v <;> simp_arith

/-- Joint strong-induction step for `remove_trackers` over a dict's
entries: given the induction hypothesis for smaller values, cleaning is
the identity on tracker-free entries, and cleaned entries are
sequence-free and tracker-free. -/
theorem remove_trackers_dict_aux (n : Nat)
    (ih : ∀ v : PyVal, sizeOf v ≤ n → listFree v = true →
      (noLocs v = true → remove_trackers v = v) ∧
      listFree (remove_trackers v) = true ∧
      noLocs (remove_trackers v) = true) :
    ∀ entries : List (PyKey × PyVal), sizeOf entries ≤ n →
      listFreeDict entries = true →
      (noLocsDict entries = true → removeTrackersDict entries = entries) ∧
      listFreeDict (removeTrackersDict entries) = true ∧
      noLocsDict (removeTrackersDict entries) = true := by
  intro entries
  induction entries with
  | nil => intro _ _; exact ⟨fun _ => rfl, rfl, rfl⟩
  | cons head rest ihr =>
    obtain ⟨k, v⟩ := head
    intro hsz hlf
    have hlf' : listFree v = true ∧ listFreeDict rest = true := by
      simpa [listFreeDict, Bool.and_eq_true] using hlf
    have hszv : sizeOf v ≤ n := by
      simp only [List.cons.sizeOf_spec, Prod.mk.sizeOf_spec] at hsz
      omega
    have hszrest : sizeOf rest ≤ n := by
      simp only [List.cons.sizeOf_spec, Prod.mk.sizeOf_spec] at hsz
      omega
    obtain ⟨ihv1, ihv2, ihv3⟩ := ih v hszv hlf'.1
    obtain ⟨ihr1, ihr2, ihr3⟩ := ihr hszrest hlf'.2
    by_cases hk : k = PyKey.str "_locations"
    · refine ⟨?_, ?_, ?_⟩
      · intro hnl
        exfalso
        simp [noLocsDict, hk] at hnl
      · simp [removeTrackersDict, hk, ihr2]
      · simp [removeTrackersDict, hk, ihr3]
    · refine ⟨?_, ?_, ?_⟩
      · intro hnl
        have hnl' : noLocs v = true ∧ noLocsDict rest = true := by
          simpa [noLocsDict, hk, Bool.and_eq_true] using hnl
        simp [removeTrackersDict, hk, ihv1 hnl'.1, ihr1 hnl'.2]
      · simp [removeTrackersDict, listFreeDict, hk, ihv2, ihr2]
      · simp [removeTrackersDict, noLocsDict, hk, ihv3, ihr3]

/-- Strong induction on size: for sequence-free values, cleaning is the
identity on tracker-free values, and cleaned values are sequence-free and
tracker-free. -/
theorem remove_trackers_aux :
    ∀ (n : Nat) (v : PyVal), sizeOf v ≤ n → listFree v = true →
      (noLocs v = true → remove_trackers v = v) ∧
      listFree (remove_trackers v) = true ∧
      noLocs (remove_trackers v) = true := by
  intro n
  induction n with
  | zero =>
    intro v hsz _
    exact absurd (pyval_sizeOf_pos v) (by omega)
  | succ n ih =>
    intro v hsz hlf
    cases v with
    | list xs => simp [listFree] at hlf
    | dict entries =>
      have hsz' : sizeOf entries ≤ n := by
        simp only [PyVal.dict.sizeOf_spec] at hsz
        omega
      have hlf' : listFreeDict entries = true := by
        simpa [listFree] using hlf
      obtain ⟨h1, h2, h3⟩ := remove_trackers_dict_aux n ih entries hsz' hlf'
      refine ⟨?_, ?_, ?_⟩
      · intro hnl
        have hnl' : noLocsDict entries = true := by simpa [noLocs] using hnl
        simp [remove_trackers, h1 hnl']
      · simp [remove_trackers, listFree, h2]
      · simp [remove_trackers, noLocs, h3]
    | str s => exact ⟨fun _ => rfl, rfl, rfl⟩
    | int i => exact ⟨fun _ => rfl, rfl, rfl⟩
    | bool b => exact ⟨fun _ => rfl, rfl, rfl⟩
    | null => exact ⟨fun _ => rfl, rfl, rfl⟩
    | mark l c => exact ⟨fun _ => rfl, rfl, rfl⟩

/-- C2 amended: restricted to parses containing no sequence (only
mappings and scalars), tracker removal is idempotent, and it is a no-op
on already-clean (tracker-free) values; on any parse containing a
non-empty sequence the second clean drops a data element instead. -/
theorem remove_trackers_idempotent_on_sequence_free (v : PyVal)
    (h : listFree v = true) :
    remove_trackers (remove_trackers v) = remove_trackers v ∧
    (noLocs v = true → remove_trackers v = v) := by
  obtain ⟨h1, h2, h3⟩ := remove_trackers_aux (sizeOf v) v le_rfl h
  obtain ⟨g1, _, _⟩ := remove_trackers_aux (sizeOf (remove_trackers v))
    (remove_trackers v) le_rfl h2
  exact ⟨g1 h3, h1⟩

/-- Witness for the C2 amended theorem on the sequence-free tracked
mapping for the header `package: foo`. -/
theorem remove_trackers_idempotent_on_sequence_free_witness :
    listFree (PyVal.dict [(PyKey.str "package", PyVal.str "foo"),
      (PyKey.str "_locations",
        PyVal.dict [(PyKey.str "package", PyVal.mark 0 0)])]) = true ∧
    (remove_trackers (remove_trackers
        (PyVal.dict [(PyKey.str "package", PyVal.str "foo"),
          (PyKey.str "_locations",
            PyVal.dict [(PyKey.str "package", PyVal.mark 0 0)])]))
      = remove_trackers
        (PyVal.dict [(PyKey.str "package", PyVal.str "foo"),
          (PyKey.str "_locations",
            PyVal.dict [(PyKey.str "package", PyVal.mark 0 0)])]) ∧
     (noLocs (PyVal.dict [(PyKey.str "package", PyVal.str "foo"),
          (PyKey.str "_locations",
            PyVal.dict [(PyKey.str "package", PyVal.mark 0 0)])]) = true →
       remove_trackers
        (PyVal.dict [(PyKey.str "package", PyVal.str "foo"),
          (PyKey.str "_locations",
            PyVal.dict [(PyKey.str "package", PyVal.mark 0 0)])])
      = PyVal.dict [(PyKey.str "package", PyVal.str "foo"),
          (PyKey.str "_locations",
            PyVal.dict [(PyKey.str "package", PyVal.mark 0 0)])])) :=
  ⟨rfl, remove_trackers_idempotent_on_sequence_free
    (PyVal.dict [(PyKey.str "package", PyVal.str "foo"),
      (PyKey.str "_locations",
        PyVal.dict [(PyKey.str "package", PyVal.mark 0 0)])]) rfl⟩
